import Mathlib

/-!
Shallow embedding of the vision-platform AI service (Python sources under
`services/ai/`).  Pure request/response handlers are translated as Lean
functions; the service classes that call external SDKs (OpenAI, Google
Translate, local MarianMT models, Tesseract/Google/Azure OCR) are modelled
with the external calls as oracle functions supplied in an environment
record, and Python exceptions as `Except` errors.  Wall-clock fields
(`processing_time` / `processingTime`) are set from `time.time()` in the
source and are omitted from the embedded response records; no claim
depends on them.  Python float literals (confidences) are embedded as `Rat`.
Python string primitives (`in`, `replace`, `lower`, `upper`, `strip`,
`lstrip`) are embedded as structurally recursive functions on character
lists so that concrete instances evaluate in the kernel; the `lower`/
`upper` embeddings are ASCII (all inputs in this code base are ASCII
language codes and keywords).
-/

namespace VisionPlatform

/-! ## Python string primitives -/

/-- Python `pat in hay` substring test on lists of characters
(recursion over the haystack). -/
def charsContain (pat : List Char) : List Char → Bool
  | [] => pat.isEmpty
  | c :: t => pat.isPrefixOf (c :: t) || charsContain pat t

/-- Python `pat in hay` for strings (substring containment). -/
def strContains (hay pat : String) : Bool :=
  charsContain pat.toList hay.toList

/-- Python `any(word in text for word in words)`. -/
def anyKeyword (text : String) (words : List String) : Bool :=
  words.any (fun w => strContains text w)

/-- Python `str.lower` (ASCII). -/
def pyLower (s : String) : String :=
  String.mk (s.toList.map Char.toLower)

/-- Python `str.upper` (ASCII). -/
def pyUpper (s : String) : String :=
  String.mk (s.toList.map Char.toUpper)

/-- Python whitespace, as recognized by `str.strip`. -/
def isPySpace (c : Char) : Bool :=
  c = ' ' || c = '\t' || c = '\n' || c = '\r' || c = '\x0b' || c = '\x0c'

/-- Python `str.strip()`. -/
def pyStrip (s : String) : String :=
  String.mk (((s.toList.dropWhile isPySpace).reverse.dropWhile isPySpace).reverse)

/-- Python `s.lstrip('.')`: drop leading dots. -/
def lstripDot (s : String) : String :=
  String.mk (s.toList.dropWhile (fun c => c == '.'))

/-- Left-to-right non-overlapping replacement of a non-empty pattern, with
a fuel argument (call sites pass the haystack length, which suffices
because each step consumes at least one character). -/
def replaceAux (pat rep : List Char) : Nat → List Char → List Char
  | 0, s => s
  | _ + 1, [] => []
  | fuel + 1, c :: t =>
    if pat.isPrefixOf (c :: t) then rep ++ replaceAux pat rep fuel ((c :: t).drop pat.length)
    else c :: replaceAux pat rep fuel t

/-- Python `s.replace("", rep)`: splice the replacement around every
character. -/
def emptyPatSplice (rep : List Char) : List Char → List Char
  | [] => rep
  | c :: t => rep ++ c :: emptyPatSplice rep t

/-- Python `s.replace(pat, rep)` (all non-overlapping occurrences,
scanned left to right). -/
def pyReplace (s pat rep : String) : String :=
  match pat.toList with
  | [] => String.mk (emptyPatSplice rep.toList s.toList)
  | _ :: _ => String.mk (replaceAux pat.toList rep.toList s.toList.length s.toList)

/-! ## `app/api/v1/translation.py` — request/response models and handlers -/

/-- `TranslationRequest` (pydantic model, `app/api/v1/translation.py`).
Defaults `model="marian"`, `quality="balanced"` are applied at parse time. -/
structure TranslationRequest where
  text : String
  source_lang : String
  target_lang : String
  model : String
  quality : String
deriving Repr, DecidableEq

/-- `TranslationResponse` without the wall-clock `processing_time` field
(the single handler computes it from `time.time()`, the batch handler
hard-codes `0.1`). -/
structure TranslationResponse where
  translated_text : String
  source_lang : String
  target_lang : String
  confidence : Rat
  model_used : String
deriving Repr, DecidableEq

/-- `translate_text` handler (`app/api/v1/translation.py`, lines 49-80):
placeholder template translation. -/
def translate_text (r : TranslationRequest) : TranslationResponse :=
  let translated :=
    if r.source_lang = "en" ∧ r.target_lang = "es" then
      pyReplace (pyReplace r.text "hello" "hola") "world" "mundo"
    else if r.source_lang = "es" ∧ r.target_lang = "en" then
      pyReplace (pyReplace r.text "hola" "hello") "mundo" "world"
    else
      "[" ++ pyUpper r.target_lang ++ "] " ++ r.text
  { translated_text := translated
    source_lang := r.source_lang
    target_lang := r.target_lang
    confidence := 85/100
    model_used := r.model }

/-- `BatchTranslationRequest` (pydantic model, default `model="marian"`). -/
structure BatchTranslationRequest where
  texts : List String
  source_lang : String
  target_lang : String
  model : String
deriving Repr, DecidableEq

/-- Body of the per-text loop in `translate_batch`
(`app/api/v1/translation.py`, lines 90-109).  Note the es→en branch
replaces `"world"` with `"world"` (a no-op), not `"mundo"` with `"world"`. -/
def translate_batch_item (source_lang target_lang model : String)
    (text : String) : TranslationResponse :=
  let translated :=
    if source_lang = "en" ∧ target_lang = "es" then
      pyReplace (pyReplace text "hello" "hola") "world" "mundo"
    else if source_lang = "es" ∧ target_lang = "en" then
      pyReplace (pyReplace text "hola" "hello") "world" "world"
    else
      "[" ++ pyUpper target_lang ++ "] " ++ text
  { translated_text := translated
    source_lang := source_lang
    target_lang := target_lang
    confidence := 85/100
    model_used := model }

/-- `translate_batch` handler (`app/api/v1/translation.py`, lines 82-122):
maps the loop body over `request.texts`. -/
def translate_batch (r : BatchTranslationRequest) : List TranslationResponse :=
  r.texts.map (translate_batch_item r.source_lang r.target_lang r.model)

/-! ## `app/api/v1/ocr.py` — `/extract-document` handler -/

/-- `DocumentOCRRequest` (pydantic model, `app/api/v1/ocr.py`).
`pages=None` (embedded as `none`) means all pages; defaults
`language="auto"`, `model="paddle"` are applied at parse time. -/
structure DocumentOCRRequest where
  document_url : String
  pages : Option (List Int)
  language : String
  model : String
deriving Repr, DecidableEq

/-- One bounding box entry of a mock page. -/
structure BoundingBox where
  text : String
  confidence : Rat
  bbox : List Int
deriving Repr, DecidableEq

/-- One entry of the `pages` list built by `extract_document`. -/
structure PageContent where
  page_number : Nat
  text : String
  confidence : Rat
  language : String
  word_count : Nat
  bounding_boxes : List BoundingBox
deriving Repr, DecidableEq

/-- `DocumentOCRResponse` without the wall-clock `processing_time`. -/
structure DocumentOCRResponse where
  pages : List PageContent
  total_pages : Nat
deriving Repr, DecidableEq

/-- Python truthiness test `request.pages and page_num not in request.pages`
deciding whether a page is skipped: `None` and `[]` are falsy. -/
def pageSkipped (pages : Option (List Int)) (page_num : Int) : Bool :=
  match pages with
  | none => false
  | some ps => !ps.isEmpty && !ps.contains page_num

/-- The mock page built for page `n` by `extract_document`
(`app/api/v1/ocr.py`, lines 117-130). -/
def mockPage (language : String) (n : Nat) : PageContent :=
  { page_number := n
    text := "This is page " ++ toString n ++ " content extracted using OCR"
    confidence := 88/100
    language := if language ≠ "auto" then language else "en"
    word_count := 10 + n * 5
    bounding_boxes :=
      [{ text := "Page " ++ toString n
         confidence := 95/100
         bbox := [50, 50, 150, 80] }] }

/-- `extract_document` handler (`app/api/v1/ocr.py`, lines 100-144):
loops `page_num` over `1..total_pages` with `total_pages = 3`, skipping
pages filtered out by `request.pages`. -/
def extract_document (r : DocumentOCRRequest) : DocumentOCRResponse :=
  let total_pages := 3
  let pages :=
    ((List.range total_pages).map (· + 1)).filterMap fun n =>
      if pageSkipped r.pages (Int.ofNat n) then none
      else some (mockPage r.language n)
  { pages := pages, total_pages := total_pages }

/-! ## `app/services/translation_service.py` — `TranslationService`

External SDK calls (OpenAI chat completion, googletrans, the local MarianMT
generate step) are oracles in `TransEnv`; an oracle value `.error ()` models
the call raising an exception.  In the source the local-model branch uses
`torch.no_grad()` although `torch` is never imported, so in the running code
that branch always raises `NameError`; the embedding keeps it as an oracle. -/

/-- Translation result dictionary, without the wall-clock `processingTime`
key that `translate` adds before returning. -/
structure TransResult where
  originalText : String
  translatedText : String
  sourceLanguage : String
  targetLanguage : String
  confidence : Rat
  alternatives : List String
  model : String
deriving Repr, DecidableEq

/-- The three provider functions `translate` may invoke. -/
inductive Provider
  | openai
  | google
  | localM
deriving Repr, DecidableEq

/-- Environment of a `TranslationService` instance: module availability
flags, the initialized helpers, and oracles for the external calls. -/
structure TransEnv where
  /-- `OPENAI_AVAILABLE` (import succeeded). -/
  openaiAvailable : Bool
  /-- `openai.api_key` is set (truthy). -/
  openaiApiKey : Bool
  /-- `self.google_translator` is initialized (truthy). -/
  googleTranslator : Bool
  /-- `self.language_detector`: `none` when unavailable; otherwise the
  model call, returning the list of `label` values or raising. -/
  languageDetector : Option (String → Except Unit (List String))
  /-- Keys of `self.local_models` (`"src-tgt"` pairs that loaded). -/
  localModels : List String
  /-- `openai.ChatCompletion.acreate`: text, source, target, context ↦
  message content (before `.strip()`) or exception. -/
  openaiCall : String → String → String → Option String → Except Unit String
  /-- `self.google_translator.translate`: text, source, target ↦
  `(result.text, result.src)` or exception. -/
  googleCall : String → String → String → Except Unit (String × String)
  /-- The local MarianMT tokenize/generate/decode step: text, source,
  target ↦ decoded text or exception (always an exception in the running
  code, since `torch` is unimported). -/
  localCall : String → String → String → Except Unit String

/-- `lang_map.get(detected, 'en')` in `detect_language`. -/
def langMap (l : String) : String :=
  if l = "LABEL_0" then "en"
  else if l = "LABEL_1" then "es"
  else if l = "LABEL_2" then "fr"
  else if l = "LABEL_3" then "de"
  else if l = "LABEL_4" then "it"
  else if l = "LABEL_5" then "pt"
  else "en"

/-- The keyword-heuristic fallback of `detect_language`
(`translation_service.py`, lines 174-189): substring checks on the
lowercased text (`text_lower` in the source), in order en, es, fr, de,
it, default en. -/
def detectHeuristic (text : String) : String :=
  if anyKeyword (pyLower text) ["the", "and", "is", "are", "hello", "thank", "you"] then "en"
  else if anyKeyword (pyLower text) ["el", "la", "y", "es", "son", "hola", "gracias"] then "es"
  else if anyKeyword (pyLower text) ["le", "la", "et", "est", "sont", "bonjour", "merci"] then "fr"
  else if anyKeyword (pyLower text) ["der", "die", "das", "und", "ist", "sind", "hallo", "danke"] then "de"
  else if anyKeyword (pyLower text) ["il", "la", "e", "è", "sono", "ciao", "grazie"] then "it"
  else "en"

/-- No heuristic keyword of any supported language occurs in the
lowercased input (the negation of every branch guard of
`detectHeuristic`). -/
def noHeuristicKeyword (text : String) : Bool :=
  !anyKeyword (pyLower text) ["the", "and", "is", "are", "hello", "thank", "you"]
  && !anyKeyword (pyLower text) ["el", "la", "y", "es", "son", "hola", "gracias"]
  && !anyKeyword (pyLower text) ["le", "la", "et", "est", "sont", "bonjour", "merci"]
  && !anyKeyword (pyLower text) ["der", "die", "das", "und", "ist", "sind", "hallo", "danke"]
  && !anyKeyword (pyLower text) ["il", "la", "e", "è", "sono", "ciao", "grazie"]

/-- `TranslationService.detect_language` (`translation_service.py`,
lines 158-193).  A raising detector call is caught by the surrounding
`except`, which returns `"en"`; a falsy (empty) detector result falls
through to the heuristics. -/
def detect_language (det : Option (String → Except Unit (List String)))
    (text : String) : String :=
  match det with
  | some f =>
    match f text with
    | .error _ => "en"
    | .ok [] => detectHeuristic text
    | .ok (l :: _) => langMap l
  | none => detectHeuristic text

/-- `if not source_lang or source_lang == "auto"`: detect when the
argument is `None`, empty, or `"auto"`. -/
def resolveSourceLang (env : TransEnv) (sourceLang : Option String)
    (text : String) : String :=
  match sourceLang with
  | none => detect_language env.languageDetector text
  | some s =>
    if s = "" ∨ s = "auto" then detect_language env.languageDetector text else s

/-- Result dictionary built by `_openai_translate` on success. -/
def openaiResult (text src tgt translated : String) : TransResult :=
  { originalText := text
    translatedText := translated
    sourceLanguage := src
    targetLanguage := tgt
    confidence := 95/100
    alternatives := []
    model := "openai-gpt-3.5-turbo" }

/-- `TranslationService._openai_translate` (lines 195-233): calls the chat
API, strips the content; its `except` logs and re-raises. -/
def openai_translate (env : TransEnv) (text src tgt : String)
    (context : Option String) : Except Unit TransResult :=
  match env.openaiCall text src tgt context with
  | .error e => .error e
  | .ok t => .ok (openaiResult text src tgt (pyStrip t))

/-- Result dictionary built by `_google_translate` on success;
`sourceLanguage` is `result.src` as reported by the API. -/
def googleResult (text tgt : String) (p : String × String) : TransResult :=
  { originalText := text
    translatedText := p.1
    sourceLanguage := p.2
    targetLanguage := tgt
    confidence := 90/100
    alternatives := []
    model := "google-translate" }

/-- `TranslationService._google_translate` (lines 235-252): calls
googletrans; its `except` logs and re-raises. -/
def google_translate (env : TransEnv) (text src tgt : String) :
    Except Unit TransResult :=
  match env.googleCall text src tgt with
  | .error e => .error e
  | .ok p => .ok (googleResult text tgt p)

/-- Result dictionary built by `_local_translate` when a local model for
the pair exists and generation succeeds. -/
def localModelResult (text src tgt translated : String) : TransResult :=
  { originalText := text
    translatedText := translated
    sourceLanguage := src
    targetLanguage := tgt
    confidence := 80/100
    alternatives := []
    model := "local-" ++ (src ++ "-" ++ tgt) }

/-- Mock result returned by `_local_translate` when no local model is
loaded for the pair (lines 282-292). -/
def mockLocalResult (text src tgt : String) : TransResult :=
  { originalText := text
    translatedText := "[" ++ pyUpper tgt ++ "] " ++ text
    sourceLanguage := src
    targetLanguage := tgt
    confidence := 50/100
    alternatives := []
    model := "mock-local" }

/-- `TranslationService._local_translate` (lines 254-296): uses the local
model when `"src-tgt"` is a key of `self.local_models` (re-raising on
failure), otherwise returns the mock translation. -/
def local_translate (env : TransEnv) (text src tgt : String) :
    Except Unit TransResult :=
  if (src ++ "-" ++ tgt) ∈ env.localModels then
    match env.localCall text src tgt with
    | .error e => .error e
    | .ok t => .ok (localModelResult text src tgt t)
  else
    .ok (mockLocalResult text src tgt)

/-- Identity fallback dictionary of step 4 of `translate` (lines 131-140). -/
def identityResult (text src tgt : String) : TransResult :=
  { originalText := text
    translatedText := text
    sourceLanguage := src
    targetLanguage := tgt
    confidence := 1/10
    alternatives := []
    model := "fallback" }

/-- Step 1 of `translate`: try OpenAI when `quality == "high"`,
`OPENAI_AVAILABLE` and `openai.api_key`; a failure is caught and logged.
Returns the optional result and the trace of providers invoked. -/
def openaiStage (env : TransEnv) (text src tgt : String)
    (context : Option String) (quality : String) :
    Option TransResult × List Provider :=
  if quality = "high" ∧ env.openaiAvailable = true ∧ env.openaiApiKey = true then
    match openai_translate env text src tgt context with
    | .ok r => (some r, [.openai])
    | .error _ => (none, [.openai])
  else (none, [])

/-- Step 2 of `translate`: `if not result and self.google_translator`;
a failure is caught and logged. -/
def googleStage (env : TransEnv) (text src tgt : String)
    (acc : Option TransResult × List Provider) :
    Option TransResult × List Provider :=
  if acc.1.isNone ∧ env.googleTranslator = true then
    match google_translate env text src tgt with
    | .ok r => (some r, acc.2 ++ [.google])
    | .error _ => (none, acc.2 ++ [.google])
  else acc

/-- Steps 3-4 of `translate`: `if not result` run `_local_translate`
(whose exception is NOT caught here: the outer `except` re-raises), then
`if not result` fall back to the identity dictionary.  `_local_translate`
always returns a non-empty (truthy) dictionary, so the `Option.getD`
modelling step 4 never takes its default. -/
def localStage (env : TransEnv) (text src tgt : String)
    (acc : Option TransResult × List Provider) :
    Except Unit TransResult × List Provider :=
  match acc.1 with
  | some r => (.ok r, acc.2)
  | none =>
    match local_translate env text src tgt with
    | .error e => (.error e, acc.2 ++ [.localM])
    | .ok r => (.ok ((some r).getD (identityResult text src tgt)), acc.2 ++ [.localM])

/-- `TranslationService.translate` (`translation_service.py`, lines
93-156): resolve the source language, then try OpenAI, Google, local in
order.  The returned trace records which provider functions were invoked,
in order. -/
def translate (env : TransEnv) (text : String) (sourceLang : Option String)
    (targetLang : String) (context : Option String) (quality : String) :
    Except Unit TransResult × List Provider :=
  let src := resolveSourceLang env sourceLang text
  localStage env text src targetLang
    (googleStage env text src targetLang
      (openaiStage env text src targetLang context quality))

/-- Condition of step 1: OpenAI is attempted. -/
def openaiTried (env : TransEnv) (quality : String) : Prop :=
  quality = "high" ∧ env.openaiAvailable = true ∧ env.openaiApiKey = true

instance (env : TransEnv) (quality : String) :
    Decidable (openaiTried env quality) := by
  unfold openaiTried; infer_instance

/-- OpenAI is attempted and produces a result. -/
def openaiSucceeds (env : TransEnv) (text src tgt : String)
    (context : Option String) (quality : String) : Prop :=
  openaiTried env quality ∧ ∃ r, openai_translate env text src tgt context = .ok r

/-- Google is initialized and its call produces a result (it is only
actually invoked when no earlier provider produced one). -/
def googleSucceeds (env : TransEnv) (text src tgt : String) : Prop :=
  env.googleTranslator = true ∧ ∃ r, google_translate env text src tgt = .ok r

/-! ## `app/services/ocr_service.py` — `OCRService`

The OCR back-ends (`_tesseract_ocr`, `_google_vision_ocr`,
`_azure_vision_ocr`) and the PDF page loop are external-library work,
modelled by the oracle `ocrRun` keyed by provider name; `.error ()` models
the provider raising.  Both `_process_image` (lines 235-237) and
`_process_pdf` (lines 184-186) re-raise any provider exception, as does
`extract_text` itself (lines 135-137), so a single oracle call with
`Except` propagation captures both file kinds. -/

/-- Configuration and availability state of an `OCRService` instance.
Defaults from `__init__`: provider `"tesseract"`, `max_file_size`
`52428800`, formats `pdf,jpg,jpeg,png,tiff`. -/
structure OCREnv where
  /-- `TESSERACT_AVAILABLE`. -/
  tesseractAvailable : Bool
  /-- `GOOGLE_VISION_AVAILABLE`. -/
  googleVisionAvailable : Bool
  /-- `AZURE_VISION_AVAILABLE`. -/
  azureVisionAvailable : Bool
  /-- `DEFAULT_OCR_PROVIDER` env var (default `"tesseract"`). -/
  defaultProvider : String
  /-- `MAX_FILE_SIZE` env var (default `52428800`). -/
  maxFileSize : Nat
  /-- `SUPPORTED_FORMATS` env var split on `,` (default
  `["pdf","jpg","jpeg","png","tiff"]`). -/
  supportedFormats : List String
  /-- The OCR work for a given provider name on a given file path:
  the extracted text, or an exception. -/
  ocrRun : String → String → Except Unit String

/-- Default `MAX_FILE_SIZE` (50 MB). -/
def defaultMaxFileSize : Nat := 52428800

/-- Default `SUPPORTED_FORMATS`. -/
def defaultSupportedFormats : List String := ["pdf", "jpg", "jpeg", "png", "tiff"]

/-- `self.available_providers`: names of the `providers` dict whose value
is not `None`, in insertion order tesseract, google, azure. -/
def availableProviders (env : OCREnv) : List String :=
  (if env.tesseractAvailable then ["tesseract"] else []) ++
  (if env.googleVisionAvailable then ["google"] else []) ++
  (if env.azureVisionAvailable then ["azure"] else [])

/-- The file `extract_text` is pointed at, as the service observes it:
existence, `stat().st_size`, and `Path(...).suffix` (e.g. `".pdf"`). -/
structure OCRFile where
  path : String
  present : Bool
  size : Nat
  suffix : String
deriving Repr, DecidableEq

/-- `file_path.suffix.lower().lstrip('.')`. -/
def fileExtension (f : OCRFile) : String :=
  lstripDot (pyLower f.suffix)

/-- The exceptions `extract_text` can raise: the three validation errors
(lines 97-108) and a propagated provider exception. -/
inductive OCRError
  | fileNotFound
  | fileTooLarge
  | unsupportedFormat
  | providerError
deriving Repr, DecidableEq

/-- Return dictionary of `extract_text` (lines 125-131), without the
wall-clock `processing_time`: the OCR payload (abstracted to its text)
plus the metadata added by `result.update`. -/
structure OCRResult where
  text : String
  file_path : String
  file_size : Nat
  file_format : String
  provider : String
deriving Repr, DecidableEq

/-- `provider or self.default_provider` (line 111): `None` and the empty
string are falsy. -/
def requestedProvider (env : OCREnv) (provider : Option String) : String :=
  match provider with
  | some p => if p = "" then env.defaultProvider else p
  | none => env.defaultProvider

/-- Provider selection (lines 111-114): the requested (or default)
provider when available, else `self.available_providers[0]`.  The
constructor raises `RuntimeError` when no provider is available, so the
`headD` default is never used on a constructed service. -/
def selectedProvider (env : OCREnv) (provider : Option String) : String :=
  if requestedProvider env provider ∈ availableProviders env then
    requestedProvider env provider
  else (availableProviders env).headD (requestedProvider env provider)

/-- `OCRService.extract_text` (`ocr_service.py`, lines 76-137): validate
existence, size and format, select the provider, run the OCR (via
`_process_pdf`/`_process_image`, both of which re-raise provider
exceptions), and attach metadata.  The second component is the trace of
provider invocations. -/
def extract_text (env : OCREnv) (f : OCRFile) (provider : Option String) :
    Except OCRError OCRResult × List String :=
  if f.present = false then (.error .fileNotFound, [])
  else if env.maxFileSize < f.size then (.error .fileTooLarge, [])
  else if fileExtension f ∉ env.supportedFormats then (.error .unsupportedFormat, [])
  else
    match env.ocrRun (selectedProvider env provider) f.path with
    | .error _ => (.error .providerError, [selectedProvider env provider])
    | .ok text =>
      (.ok { text := text
             file_path := f.path
             file_size := f.size
             file_format := fileExtension f
             provider := selectedProvider env provider },
       [selectedProvider env provider])

/-! ## Theorems -/

/-- Step 1 when OpenAI is attempted and succeeds. -/
theorem openaiStage_tried_ok {env : TransEnv} {quality : String}
    (text src tgt : String) (context : Option String)
    (h : openaiTried env quality) {r : TransResult}
    (ho : openai_translate env text src tgt context = .ok r) :
    openaiStage env text src tgt context quality = (some r, [.openai]) := by
  unfold openaiTried at h
  unfold openaiStage
  rw [if_pos h, ho]

/-- Step 1 when OpenAI is attempted and raises (the failure is caught). -/
theorem openaiStage_tried_err {env : TransEnv} {quality : String}
    (text src tgt : String) (context : Option String)
    (h : openaiTried env quality) {e : Unit}
    (ho : openai_translate env text src tgt context = .error e) :
    openaiStage env text src tgt context quality = (none, [.openai]) := by
  unfold openaiTried at h
  unfold openaiStage
  rw [if_pos h, ho]

/-- Step 1 when OpenAI is not attempted. -/
theorem openaiStage_not_tried {env : TransEnv} {quality : String}
    (text src tgt : String) (context : Option String)
    (h : ¬ openaiTried env quality) :
    openaiStage env text src tgt context quality = (none, []) := by
  unfold openaiTried at h
  unfold openaiStage
  rw [if_neg h]

/-- Step 2 skips Google when a result already exists. -/
theorem googleStage_some (env : TransEnv) (text src tgt : String)
    (r : TransResult) (tr : List Provider) :
    googleStage env text src tgt (some r, tr) = (some r, tr) := by
  unfold googleStage
  simp

/-- Step 2 skips Google when the translator is not initialized. -/
theorem googleStage_none_off {env : TransEnv} (text src tgt : String)
    (hg : env.googleTranslator = false) (tr : List Provider) :
    googleStage env text src tgt (none, tr) = (none, tr) := by
  unfold googleStage
  simp [hg]

/-- Step 2 when Google is invoked and succeeds. -/
theorem googleStage_none_ok {env : TransEnv} {text src tgt : String}
    (hg : env.googleTranslator = true) {r : TransResult}
    (ho : google_translate env text src tgt = .ok r) (tr : List Provider) :
    googleStage env text src tgt (none, tr) = (some r, tr ++ [.google]) := by
  unfold googleStage
  simp [hg, ho]

/-- Step 2 when Google is invoked and raises (the failure is caught). -/
theorem googleStage_none_err {env : TransEnv} {text src tgt : String}
    (hg : env.googleTranslator = true) {e : Unit}
    (ho : google_translate env text src tgt = .error e) (tr : List Provider) :
    googleStage env text src tgt (none, tr) = (none, tr ++ [.google]) := by
  unfold googleStage
  simp [hg, ho]

/-- Steps 3-4 are skipped when a result already exists. -/
theorem localStage_some (env : TransEnv) (text src tgt : String)
    (r : TransResult) (tr : List Provider) :
    localStage env text src tgt (some r, tr) = (.ok r, tr) := rfl

/-- Steps 3-4 with no earlier result: the outcome is exactly that of
`_local_translate` (the identity fallback of step 4 is unreachable), and
the local provider is recorded in the trace. -/
theorem localStage_none (env : TransEnv) (text src tgt : String)
    (tr : List Provider) :
    localStage env text src tgt (none, tr) =
      (local_translate env text src tgt, tr ++ [.localM]) := by
  unfold localStage
  cases h : local_translate env text src tgt <;> simp [h]

/-- OpenAI succeeding precludes `openai_translate` having errored. -/
theorem not_openaiSucceeds_of_err {env : TransEnv} {text src tgt : String}
    {context : Option String} {quality : String} {e : Unit}
    (ho : openai_translate env text src tgt context = .error e) :
    ¬ openaiSucceeds env text src tgt context quality := by
  rintro ⟨_, r, hr⟩
  rw [ho] at hr
  exact Except.noConfusion hr

/-- OpenAI not being attempted precludes it succeeding. -/
theorem not_openaiSucceeds_of_not_tried {env : TransEnv} {text src tgt : String}
    {context : Option String} {quality : String}
    (h : ¬ openaiTried env quality) :
    ¬ openaiSucceeds env text src tgt context quality := by
  rintro ⟨ht, _⟩
  exact h ht

/-- Google erroring precludes it succeeding. -/
theorem not_googleSucceeds_of_err {env : TransEnv} {text src tgt : String} {e : Unit}
    (ho : google_translate env text src tgt = .error e) :
    ¬ googleSucceeds env text src tgt := by
  rintro ⟨_, r, hr⟩
  rw [ho] at hr
  exact Except.noConfusion hr

/-- The translator being uninitialized precludes Google succeeding. -/
theorem not_googleSucceeds_of_off {env : TransEnv} {text src tgt : String}
    (hg : env.googleTranslator = false) :
    ¬ googleSucceeds env text src tgt := by
  rintro ⟨ht, _⟩
  rw [hg] at ht
  exact Bool.noConfusion ht

/-- Full case characterization of the `translate` provider cascade,
shared by the fallback-chain claims: the trace follows the fixed
preference order, OpenAI is attempted exactly under its guard, Google
exactly when initialized and no earlier result exists, the local path
exactly when no earlier provider produced a result, and the first
provider to produce a result supplies the returned translation. -/
theorem translate_spec (env : TransEnv) (text : String)
    (sourceLang : Option String) (targetLang : String)
    (context : Option String) (quality : String) :
    List.Sublist (translate env text sourceLang targetLang context quality).2
        [Provider.openai, Provider.google, Provider.localM]
    ∧ (Provider.openai ∈ (translate env text sourceLang targetLang context quality).2 ↔
        openaiTried env quality)
    ∧ (Provider.google ∈ (translate env text sourceLang targetLang context quality).2 ↔
        (env.googleTranslator = true ∧
          ¬ openaiSucceeds env text (resolveSourceLang env sourceLang text)
              targetLang context quality))
    ∧ (Provider.localM ∈ (translate env text sourceLang targetLang context quality).2 ↔
        (¬ openaiSucceeds env text (resolveSourceLang env sourceLang text)
              targetLang context quality
          ∧ ¬ googleSucceeds env text (resolveSourceLang env sourceLang text) targetLang))
    ∧ (openaiSucceeds env text (resolveSourceLang env sourceLang text)
          targetLang context quality →
        (translate env text sourceLang targetLang context quality).1 =
            openai_translate env text (resolveSourceLang env sourceLang text)
              targetLang context
          ∧ Provider.google ∉ (translate env text sourceLang targetLang context quality).2
          ∧ Provider.localM ∉ (translate env text sourceLang targetLang context quality).2)
    ∧ (¬ openaiSucceeds env text (resolveSourceLang env sourceLang text)
          targetLang context quality →
        googleSucceeds env text (resolveSourceLang env sourceLang text) targetLang →
        (translate env text sourceLang targetLang context quality).1 =
            google_translate env text (resolveSourceLang env sourceLang text) targetLang
          ∧ Provider.localM ∉ (translate env text sourceLang targetLang context quality).2)
    ∧ (¬ openaiSucceeds env text (resolveSourceLang env sourceLang text)
          targetLang context quality →
        ¬ googleSucceeds env text (resolveSourceLang env sourceLang text) targetLang →
        (translate env text sourceLang targetLang context quality).1 =
          local_translate env text (resolveSourceLang env sourceLang text) targetLang) := by
  have hdef : translate env text sourceLang targetLang context quality =
      localStage env text (resolveSourceLang env sourceLang text) targetLang
        (googleStage env text (resolveSourceLang env sourceLang text) targetLang
          (openaiStage env text (resolveSourceLang env sourceLang text) targetLang
            context quality)) := rfl
  rw [hdef]
  generalize resolveSourceLang env sourceLang text = src
  by_cases h1 : openaiTried env quality
  · cases ho : openai_translate env text src targetLang context with
    | ok r =>
      have hS : openaiSucceeds env text src targetLang context quality := ⟨h1, r, ho⟩
      rw [openaiStage_tried_ok text src targetLang context h1 ho, googleStage_some,
        localStage_some]
      refine ⟨(by decide : List.Sublist [Provider.openai]
          [Provider.openai, Provider.google, Provider.localM]),
        by simp [h1], by simp [hS], by simp [hS],
        fun _ => ⟨rfl, by simp, by simp⟩, fun hn _ => absurd hS hn,
        fun hn _ => absurd hS hn⟩
    | error e =>
      have hnS : ¬ openaiSucceeds env text src targetLang context quality :=
        not_openaiSucceeds_of_err ho
      rw [openaiStage_tried_err text src targetLang context h1 ho]
      by_cases hg : env.googleTranslator = true
      · cases hgo : google_translate env text src targetLang with
        | ok r =>
          have hG : googleSucceeds env text src targetLang := ⟨hg, r, hgo⟩
          rw [googleStage_none_ok hg hgo, localStage_some]
          refine ⟨(by decide : List.Sublist ([Provider.openai] ++ [Provider.google])
              [Provider.openai, Provider.google, Provider.localM]),
            by simp [h1], by simp [hg, hnS], by simp [hG],
            fun hs => absurd hs hnS, fun _ _ => ⟨rfl, by simp⟩,
            fun _ hn => absurd hG hn⟩
        | error e' =>
          have hnG : ¬ googleSucceeds env text src targetLang :=
            not_googleSucceeds_of_err hgo
          rw [googleStage_none_err hg hgo, localStage_none]
          refine ⟨(by decide : List.Sublist ([Provider.openai] ++ [Provider.google] ++ [Provider.localM])
              [Provider.openai, Provider.google, Provider.localM]),
            by simp [h1], by simp [hg, hnS], by simp [hnS, hnG],
            fun hs => absurd hs hnS, fun _ hgs => absurd hgs hnG,
            fun _ _ => rfl⟩
      · have hgf : env.googleTranslator = false := by
          cases henv : env.googleTranslator
          · rfl
          · exact absurd henv hg
        have hnG : ¬ googleSucceeds env text src targetLang :=
          not_googleSucceeds_of_off hgf
        rw [googleStage_none_off text src targetLang hgf, localStage_none]
        refine ⟨(by decide : List.Sublist ([Provider.openai] ++ [Provider.localM])
            [Provider.openai, Provider.google, Provider.localM]),
          by simp [h1], by simp [hgf], by simp [hnS, hnG],
          fun hs => absurd hs hnS, fun _ hgs => absurd hgs hnG,
          fun _ _ => rfl⟩
  · have hnS : ¬ openaiSucceeds env text src targetLang context quality :=
      not_openaiSucceeds_of_not_tried h1
    rw [openaiStage_not_tried text src targetLang context h1]
    by_cases hg : env.googleTranslator = true
    · cases hgo : google_translate env text src targetLang with
      | ok r =>
        have hG : googleSucceeds env text src targetLang := ⟨hg, r, hgo⟩
        rw [googleStage_none_ok hg hgo, localStage_some]
        refine ⟨(by decide : List.Sublist ([] ++ [Provider.google])
            [Provider.openai, Provider.google, Provider.localM]),
          by simp [h1], by simp [hg, hnS], by simp [hG],
          fun hs => absurd hs hnS, fun _ _ => ⟨rfl, by simp⟩,
          fun _ hn => absurd hG hn⟩
      | error e' =>
        have hnG : ¬ googleSucceeds env text src targetLang :=
          not_googleSucceeds_of_err hgo
        rw [googleStage_none_err hg hgo, localStage_none]
        refine ⟨(by decide : List.Sublist ([] ++ [Provider.google] ++ [Provider.localM])
            [Provider.openai, Provider.google, Provider.localM]),
          by simp [h1], by simp [hg, hnS], by simp [hnS, hnG],
          fun hs => absurd hs hnS, fun _ hgs => absurd hgs hnG,
          fun _ _ => rfl⟩
    · have hgf : env.googleTranslator = false := by
        cases henv : env.googleTranslator
        · rfl
        · exact absurd henv hg
      have hnG : ¬ googleSucceeds env text src targetLang :=
        not_googleSucceeds_of_off hgf
      rw [googleStage_none_off text src targetLang hgf, localStage_none]
      refine ⟨(by decide : List.Sublist ([] ++ [Provider.localM])
          [Provider.openai, Provider.google, Provider.localM]),
        by simp [h1], by simp [hgf], by simp [hnS, hnG],
        fun hs => absurd hs hnS, fun _ hgs => absurd hgs hnG,
        fun _ _ => rfl⟩

/-- C2: `translate` attempts the providers sequentially in the fixed
preference order OpenAI (only under `quality = "high"` with the OpenAI
module and API key present), then Google Translate (when initialized),
then local models; the first provider to produce a result supplies the
returned translation, and no later provider in the order is attempted. -/
theorem translate_provider_order (env : TransEnv) (text : String)
    (sourceLang : Option String) (targetLang : String)
    (context : Option String) (quality : String) :
    List.Sublist (translate env text sourceLang targetLang context quality).2
        [Provider.openai, Provider.google, Provider.localM]
    ∧ (Provider.openai ∈ (translate env text sourceLang targetLang context quality).2 ↔
        openaiTried env quality)
    ∧ (Provider.google ∈ (translate env text sourceLang targetLang context quality).2 ↔
        (env.googleTranslator = true ∧
          ¬ openaiSucceeds env text (resolveSourceLang env sourceLang text)
              targetLang context quality))
    ∧ (Provider.localM ∈ (translate env text sourceLang targetLang context quality).2 ↔
        (¬ openaiSucceeds env text (resolveSourceLang env sourceLang text)
              targetLang context quality
          ∧ ¬ googleSucceeds env text (resolveSourceLang env sourceLang text) targetLang))
    ∧ (openaiSucceeds env text (resolveSourceLang env sourceLang text)
          targetLang context quality →
        (translate env text sourceLang targetLang context quality).1 =
            openai_translate env text (resolveSourceLang env sourceLang text)
              targetLang context
          ∧ Provider.google ∉ (translate env text sourceLang targetLang context quality).2
          ∧ Provider.localM ∉ (translate env text sourceLang targetLang context quality).2)
    ∧ (¬ openaiSucceeds env text (resolveSourceLang env sourceLang text)
          targetLang context quality →
        googleSucceeds env text (resolveSourceLang env sourceLang text) targetLang →
        (translate env text sourceLang targetLang context quality).1 =
            google_translate env text (resolveSourceLang env sourceLang text) targetLang
          ∧ Provider.localM ∉ (translate env text sourceLang targetLang context quality).2)
    ∧ (¬ openaiSucceeds env text (resolveSourceLang env sourceLang text)
          targetLang context quality →
        ¬ googleSucceeds env text (resolveSourceLang env sourceLang text) targetLang →
        (translate env text sourceLang targetLang context quality).1 =
          local_translate env text (resolveSourceLang env sourceLang text) targetLang) :=
  translate_spec env text sourceLang targetLang context quality

/-- Witness for `translate_provider_order`: OpenAI succeeds under high
quality, so the result is OpenAI's and neither Google nor the local
provider is attempted. -/
theorem translate_provider_order_witness :
    (translate ⟨true, true, true, none, [], fun _ _ _ _ => .ok "Hola", fun _ _ _ => .ok ("x", "en"), fun _ _ _ => .error ()⟩
        "hi" (some "en") "es" none "high").1 =
      openai_translate ⟨true, true, true, none, [], fun _ _ _ _ => .ok "Hola", fun _ _ _ => .ok ("x", "en"), fun _ _ _ => .error ()⟩
        "hi" "en" "es" none
    ∧ Provider.google ∉
      (translate ⟨true, true, true, none, [], fun _ _ _ _ => .ok "Hola", fun _ _ _ => .ok ("x", "en"), fun _ _ _ => .error ()⟩
        "hi" (some "en") "es" none "high").2 := by
  have h := (translate_provider_order ⟨true, true, true, none, [], fun _ _ _ _ => .ok "Hola", fun _ _ _ => .ok ("x", "en"), fun _ _ _ => .error ()⟩
      "hi" (some "en") "es" none "high").2.2.2.2.1
      ⟨⟨rfl, rfl, rfl⟩, openaiResult "hi" "en" "es" "Hola", rfl⟩
  exact ⟨h.1, h.2.1⟩

/-- C4: within one `translate` call, each provider function is invoked
at most once; a failed provider is never re-attempted. -/
theorem translate_no_retry (env : TransEnv) (text : String)
    (sourceLang : Option String) (targetLang : String)
    (context : Option String) (quality : String) (p : Provider) :
    List.count p (translate env text sourceLang targetLang context quality).2 ≤ 1 := by
  have hsub := (translate_spec env text sourceLang targetLang context quality).1
  have hle := List.Sublist.count_le hsub p
  have hone : List.count p [Provider.openai, Provider.google, Provider.localM] ≤ 1 := by
    cases p <;> decide
  exact le_trans hle hone

/-- C1 counterexample: with OpenAI attempted and failing, Google
initialized and failing, and a loaded local model whose generation step
fails, `translate` propagates the exception instead of returning an
identity or mock result — "the call still returns a result rather than
raising an exception" is false as stated. -/
theorem translate_all_fail_raises_cex :
    (translate ⟨true, true, true, none, ["en-es"], fun _ _ _ _ => .error (), fun _ _ _ => .error (), fun _ _ _ => .error ()⟩
        "hi" (some "en") "es" none "high").1 = .error () := rfl

/-- C1 (amended): when OpenAI and Google both fail or are unavailable,
`translate` returns the mock-local templated translation (model
`"mock-local"`) when no local model is loaded for the language pair; when
a loaded local model's generation fails, the exception propagates out of
`translate`.  (The identity fallback, model `"fallback"`, is unreachable:
`_local_translate` always returns a truthy dictionary or raises.) -/
theorem translate_fallback_amended (env : TransEnv) (text : String)
    (sourceLang : Option String) (targetLang : String)
    (context : Option String) (quality : String)
    (hO : ¬ openaiSucceeds env text (resolveSourceLang env sourceLang text)
        targetLang context quality)
    (hG : ¬ googleSucceeds env text (resolveSourceLang env sourceLang text) targetLang) :
    ((resolveSourceLang env sourceLang text ++ "-" ++ targetLang) ∉ env.localModels →
      (translate env text sourceLang targetLang context quality).1 =
        .ok (mockLocalResult text (resolveSourceLang env sourceLang text) targetLang))
    ∧ ((resolveSourceLang env sourceLang text ++ "-" ++ targetLang) ∈ env.localModels →
       env.localCall text (resolveSourceLang env sourceLang text) targetLang = .error () →
      (translate env text sourceLang targetLang context quality).1 = .error ()) := by
  have hloc := (translate_spec env text sourceLang targetLang context quality).2.2.2.2.2.2
    hO hG
  constructor
  · intro hmem
    rw [hloc]
    unfold local_translate
    rw [if_neg hmem]
  · intro hmem hcall
    rw [hloc]
    unfold local_translate
    rw [if_pos hmem, hcall]

/-- Witness for `translate_fallback_amended`: all providers unavailable
and no local model loaded — the mock-local result is returned. -/
theorem translate_fallback_amended_witness :
    (translate ⟨false, false, false, none, [], fun _ _ _ _ => .error (), fun _ _ _ => .error (), fun _ _ _ => .error ()⟩
        "hi" (some "en") "es" none "balanced").1 =
      .ok (mockLocalResult "hi" "en" "es") :=
  (translate_fallback_amended
      ⟨false, false, false, none, [], fun _ _ _ _ => .error (), fun _ _ _ => .error (), fun _ _ _ => .error ()⟩
      "hi" (some "en") "es" none "balanced"
      (fun h => by simpa using h.1.2.1)
      (fun h => by simpa using h.1)).1
    (by simp)

/-- C6: the `/translate` handler computes its output by the fixed
template: en→es replaces `"hello"`→`"hola"` and `"world"`→`"mundo"`,
es→en replaces `"hola"`→`"hello"` and `"mundo"`→`"world"`, any other
pair yields `"[" ++ upper(target) ++ "] " ++ text`; confidence is always
`0.85` and `model_used` echoes the request's `model` field. -/
theorem translate_text_template (r : TranslationRequest) :
    (r.source_lang = "en" → r.target_lang = "es" →
      (translate_text r).translated_text =
        pyReplace (pyReplace r.text "hello" "hola") "world" "mundo")
    ∧ (r.source_lang = "es" → r.target_lang = "en" →
      (translate_text r).translated_text =
        pyReplace (pyReplace r.text "hola" "hello") "mundo" "world")
    ∧ (¬(r.source_lang = "en" ∧ r.target_lang = "es") →
       ¬(r.source_lang = "es" ∧ r.target_lang = "en") →
      (translate_text r).translated_text =
        "[" ++ pyUpper r.target_lang ++ "] " ++ r.text)
    ∧ (translate_text r).confidence = 85/100
    ∧ (translate_text r).model_used = r.model := by
  refine ⟨?_, ?_, ?_, rfl, rfl⟩
  · intro h1 h2
    simp [translate_text, h1, h2]
  · intro h1 h2
    have hne : ¬(r.source_lang = "en" ∧ r.target_lang = "es") := by
      rintro ⟨a, _⟩
      rw [h1] at a
      exact absurd a (by decide)
    simp [translate_text, hne, h1, h2]
  · intro h1 h2
    simp [translate_text, h1, h2]

/-- Witness for `translate_text_template` at a concrete request. -/
theorem translate_text_template_witness :
    (translate_text ⟨"hello world", "en", "es", "marian", "balanced"⟩).translated_text =
      pyReplace (pyReplace "hello world" "hello" "hola") "world" "mundo" :=
  (translate_text_template _).1 rfl rfl

/-- C5: the `/extract-document` handler ignores `document_url` (and
`model`): two requests agreeing on `pages` and `language` get equal
responses (the wall-clock `processing_time` is outside the embedded
response), and `total_pages` is always `3`. -/
theorem extract_document_url_independent (r₁ r₂ : DocumentOCRRequest)
    (hp : r₁.pages = r₂.pages) (hl : r₁.language = r₂.language) :
    extract_document r₁ = extract_document r₂ ∧
    (extract_document r₁).total_pages = 3 := by
  constructor
  · unfold extract_document
    rw [hp, hl]
  · rfl

/-- Witness for `extract_document_url_independent`: two requests with
different URLs and models but equal `pages`/`language`. -/
theorem extract_document_url_independent_witness :
    extract_document ⟨"http://a/doc.pdf", some [1, 3], "en", "paddle"⟩ =
      extract_document ⟨"http://b/other.pdf", some [1, 3], "en", "tesseract"⟩ ∧
    (extract_document ⟨"http://a/doc.pdf", some [1, 3], "en", "paddle"⟩).total_pages = 3 :=
  extract_document_url_independent _ _ rfl rfl

/-- C10: the batch endpoint diverges from the single endpoint on the
es→en pair: its loop body replaces `"world"` with `"world"` (a no-op)
where the single handler replaces `"mundo"` with `"world"`.  On input
`"mundo"` the batch handler returns `"mundo"` while the single handler
returns `"world"`. -/
theorem translate_batch_divergence :
    (translate_batch ⟨["mundo"], "es", "en", "marian"⟩).map
        (fun t => t.translated_text) = ["mundo"]
    ∧ (translate_text ⟨"mundo", "es", "en", "marian", "balanced"⟩).translated_text
        = "world" := by
  constructor
  · decide
  · decide

/-- C9 counterexample: with the detection model unavailable and input
`"hola"` (which contains the Spanish keyword `"la"`), `detect_language`
returns `"es"`, not `"en"` — so "returns `"en"` whenever the detection
model is unavailable" is false as stated. -/
theorem detect_language_unavailable_cex :
    detect_language none "hola" = "es" ∧
    detect_language none "hola" ≠ "en" := by
  constructor
  · decide
  · decide

/-- `langMap` only produces supported language codes. -/
theorem langMap_mem (l : String) :
    langMap l ∈ (["en", "es", "fr", "de", "it", "pt"] : List String) := by
  unfold langMap
  split_ifs <;> simp

/-- `detectHeuristic` only produces supported language codes. -/
theorem detectHeuristic_mem (text : String) :
    detectHeuristic text ∈ (["en", "es", "fr", "de", "it", "pt"] : List String) := by
  unfold detectHeuristic
  split_ifs <;> simp

/-- When no heuristic keyword occurs, `detectHeuristic` falls through to
its default `"en"`. -/
theorem detectHeuristic_of_noKeyword (text : String)
    (h : noHeuristicKeyword text = true) : detectHeuristic text = "en" := by
  unfold noHeuristicKeyword at h
  simp only [Bool.and_eq_true, Bool.not_eq_true'] at h
  obtain ⟨⟨⟨⟨h1, h2⟩, h3⟩, h4⟩, h5⟩ := h
  unfold detectHeuristic
  simp [h1, h2, h3, h4, h5]

/-- C9 (amended): `detect_language` is total and always returns a
supported language code; it returns `"en"` whenever the model call
raises, and whenever no model result is used (model unavailable, or the
model returned an empty result) and no heuristic keyword occurs in the
lowercased input. -/
theorem detect_language_total_and_fallback
    (det : Option (String → Except Unit (List String))) (text : String) :
    detect_language det text ∈ (["en", "es", "fr", "de", "it", "pt"] : List String)
    ∧ (∀ f, det = some f → f text = .error () →
        detect_language det text = "en")
    ∧ (det = none → noHeuristicKeyword text = true →
        detect_language det text = "en")
    ∧ (∀ f, det = some f → f text = .ok [] → noHeuristicKeyword text = true →
        detect_language det text = "en") := by
  refine ⟨?_, ?_, ?_, ?_⟩
  · cases det with
    | none => exact detectHeuristic_mem text
    | some f =>
      cases hf : f text with
      | error e => simp [detect_language, hf]
      | ok ls =>
        cases ls with
        | nil => simpa [detect_language, hf] using detectHeuristic_mem text
        | cons l t => simpa [detect_language, hf] using langMap_mem l
  · intro f hdet herr
    subst hdet
    simp [detect_language, herr]
  · intro hdet hkw
    subst hdet
    simpa [detect_language] using detectHeuristic_of_noKeyword text hkw
  · intro f hdet hok hkw
    subst hdet
    simpa [detect_language, hok] using detectHeuristic_of_noKeyword text hkw

/-- Witness for `detect_language_total_and_fallback`: an unavailable
model with keyword-free input yields `"en"`; a raising model also
yields `"en"`. -/
theorem detect_language_total_and_fallback_witness :
    detect_language none "zzz" = "en" ∧
    detect_language (some (fun _ => .error ())) "zzz" = "en" :=
  ⟨(detect_language_total_and_fallback none "zzz").2.2.1 rfl (by decide),
   (detect_language_total_and_fallback (some (fun _ => .error ())) "zzz").2.1
     _ rfl rfl⟩

/-- C8: `extract_text` validates before any provider runs, with a
distinct error per violation: `FileNotFoundError` when the file does not
exist, `ValueError` (file too large) when its size exceeds
`max_file_size`, `ValueError` (unsupported format) when its extension is
not among the supported formats; in each case the provider trace is
empty. -/
theorem extract_text_validation (env : OCREnv) (f : OCRFile)
    (provider : Option String) :
    (f.present = false →
      extract_text env f provider = (.error .fileNotFound, []))
    ∧ (f.present = true → env.maxFileSize < f.size →
      extract_text env f provider = (.error .fileTooLarge, []))
    ∧ (f.present = true → f.size ≤ env.maxFileSize →
       fileExtension f ∉ env.supportedFormats →
      extract_text env f provider = (.error .unsupportedFormat, [])) := by
  refine ⟨?_, ?_, ?_⟩
  · intro h
    simp [extract_text, h]
  · intro h hs
    simp [extract_text, h, hs]
  · intro h hs hf
    have hns : ¬ env.maxFileSize < f.size := by omega
    simp [extract_text, h, hns, hf]

/-- Witness for `extract_text_validation` with the default configuration
(max size `52428800`, formats pdf/jpg/jpeg/png/tiff): a missing file, an
oversized file, and a `.bmp` file each produce their distinct error with
no provider invoked. -/
theorem extract_text_validation_witness :
    extract_text ⟨true, false, false, "tesseract", defaultMaxFileSize, defaultSupportedFormats, fun _ _ => .ok "text"⟩
        ⟨"/tmp/missing.png", false, 10, ".png"⟩ none = (.error .fileNotFound, [])
    ∧ extract_text ⟨true, false, false, "tesseract", defaultMaxFileSize, defaultSupportedFormats, fun _ _ => .ok "text"⟩
        ⟨"/tmp/big.png", true, 52428801, ".png"⟩ none = (.error .fileTooLarge, [])
    ∧ extract_text ⟨true, false, false, "tesseract", defaultMaxFileSize, defaultSupportedFormats, fun _ _ => .ok "text"⟩
        ⟨"/tmp/img.bmp", true, 10, ".bmp"⟩ none = (.error .unsupportedFormat, []) :=
  ⟨(extract_text_validation _ _ _).1 rfl,
   (extract_text_validation _ _ _).2.1 rfl (by decide),
   (extract_text_validation _ _ _).2.2 rfl (by decide) (by decide)⟩

/-- C7 counterexample: with `DEFAULT_OCR_PROVIDER=google`, tesseract and
google both available, and no provider requested, `extract_text` uses
`"google"` — not the first element `"tesseract"` of the
available-providers list as the claim requires when no requested provider
is among them. -/
theorem extract_text_default_provider_cex :
    (extract_text ⟨true, true, false, "google", 52428800, ["png"], fun _ _ => .ok "t"⟩
        ⟨"a.png", true, 10, ".png"⟩ none).1 =
      .ok ⟨"t", "a.png", 10, "png", "google"⟩
    ∧ availableProviders ⟨true, true, false, "google", 52428800, ["png"], fun _ _ => .ok "t"⟩
        = ["tesseract", "google"] := by
  constructor
  · rfl
  · rfl

/-- C7 (amended): the provider used is the requested provider — or the
default provider when none (or an empty string) is requested — when that
provider is among the available providers, and otherwise the first
element of the available-providers list; the returned dictionary's
`provider` field equals the provider actually used. -/
theorem extract_text_provider_selection (env : OCREnv) (f : OCRFile)
    (provider : Option String)
    (hp : f.present = true) (hs : f.size ≤ env.maxFileSize)
    (hf : fileExtension f ∈ env.supportedFormats) :
    (extract_text env f provider).2 = [selectedProvider env provider]
    ∧ (requestedProvider env provider ∈ availableProviders env →
        selectedProvider env provider = requestedProvider env provider)
    ∧ (∀ a l, availableProviders env = a :: l →
        requestedProvider env provider ∉ availableProviders env →
        selectedProvider env provider = a)
    ∧ (∀ r, (extract_text env f provider).1 = .ok r →
        r.provider = selectedProvider env provider) := by
  have hns : ¬ env.maxFileSize < f.size := by omega
  refine ⟨?_, ?_, ?_, ?_⟩
  · cases ho : env.ocrRun (selectedProvider env provider) f.path <;>
      simp [extract_text, hp, hns, hf, ho]
  · intro hmem
    unfold selectedProvider
    rw [if_pos hmem]
  · intro a l hav hmem
    unfold selectedProvider
    rw [if_neg hmem, hav]
    rfl
  · intro r hr
    cases ho : env.ocrRun (selectedProvider env provider) f.path with
    | error e =>
      simp [extract_text, hp, hns, hf, ho] at hr
    | ok t =>
      simp [extract_text, hp, hns, hf, ho] at hr
      rw [← hr]

/-- Witness for `extract_text_provider_selection`: requesting the
unavailable `"azure"` falls back to the head `"tesseract"` of the
available-providers list, which the result's `provider` field reports. -/
theorem extract_text_provider_selection_witness :
    (extract_text ⟨true, true, false, "tesseract", 52428800, ["png"], fun _ _ => .ok "t"⟩
        ⟨"a.png", true, 10, ".png"⟩ (some "azure")).2 =
      [selectedProvider ⟨true, true, false, "tesseract", 52428800, ["png"], fun _ _ => .ok "t"⟩ (some "azure")]
    ∧ selectedProvider ⟨true, true, false, "tesseract", 52428800, ["png"], fun _ _ => .ok "t"⟩
        (some "azure") = "tesseract" :=
  ⟨(extract_text_provider_selection _ _ _ rfl (by decide) (by decide)).1,
   (extract_text_provider_selection
       ⟨true, true, false, "tesseract", 52428800, ["png"], fun _ _ => .ok "t"⟩
       ⟨"a.png", true, 10, ".png"⟩ (some "azure") rfl (by decide) (by decide)).2.2.1
     "tesseract" ["google"] rfl (by decide)⟩

/-- C3 counterexample: with tesseract failing and google available as the
next provider in the chain, `extract_text` on a valid file propagates the
error with only tesseract invoked — it neither attempts another provider
nor returns a mock result, so the claim is false as stated. -/
theorem extract_text_no_fallback_cex :
    extract_text ⟨true, true, false, "tesseract", 52428800, ["png"], fun _ _ => .error ()⟩
        ⟨"a.png", true, 10, ".png"⟩ (some "tesseract")
      = (.error .providerError, ["tesseract"]) := rfl

/-- C3 (amended): when the selected provider's OCR attempt raises an
exception on a valid file, `extract_text` re-raises it: the error
propagates to the caller, only that provider appears in the trace (no
other provider is attempted), and no mock result is returned. -/
theorem extract_text_provider_error_propagates (env : OCREnv) (f : OCRFile)
    (provider : Option String)
    (hp : f.present = true) (hs : f.size ≤ env.maxFileSize)
    (hf : fileExtension f ∈ env.supportedFormats)
    (he : env.ocrRun (selectedProvider env provider) f.path = .error ()) :
    extract_text env f provider =
      (.error .providerError, [selectedProvider env provider]) := by
  have hns : ¬ env.maxFileSize < f.size := by omega
  simp [extract_text, hp, hns, hf, he]

/-- Witness for `extract_text_provider_error_propagates` at a concrete
failing provider. -/
theorem extract_text_provider_error_propagates_witness :
    extract_text ⟨false, true, false, "google", 52428800, ["jpg"], fun _ _ => .error ()⟩
        ⟨"b.jpg", true, 20, ".jpg"⟩ none
      = (.error .providerError,
         [selectedProvider ⟨false, true, false, "google", 52428800, ["jpg"], fun _ _ => .error ()⟩ none]) :=
  extract_text_provider_error_propagates _ _ _ rfl (by decide) (by decide) rfl

end VisionPlatform
